import Mathlib

/-!
Verification of the natural-language specification of the NL→SQL console
frontend (`src/frontend/src/App.tsx`) against a shallow embedding of its
code.  The embedding covers:

* the scalar cell values a JSON row can hold and their JavaScript
  `String(...)` rendering;
* the result-table renderer (`response.rows.length === 0` placeholder,
  otherwise a grid mapping `columns` across each row with
  `String(row[col] ?? '')` per cell);
* the summary block's render condition (`response.summary && ...`,
  plain JavaScript truthiness);
* the `handleSubmit` request lifecycle: the synchronous prefix
  (`setLoading(true); setError(null); setResponse(null)`), the
  unconditionally issued fetch with body
  `{db_path, question, dialect: 'sqlite', max_tokens: 512}`, and the
  completion paths (non-2xx -> thrown `Error(text || template)` caught
  into `setError`; parsed 2xx payload -> `setResponse`; network/parse
  failure -> `setError`; `setLoading(false)` in `finally`).

Interleavings of overlapping submissions are modelled as event lists
over the shared component state, since every `setX` call mutates the
single shared state record and each submission's continuation applies
its own outcome to whatever the state is at arrival time.
-/

namespace NLConsole

/-- Scalar values a result-row cell can hold (the SQLite/JSON scalars the
frontend receives: null, booleans, numbers, strings). -/
inductive JSValue where
  | null
  | bool (b : Bool)
  | num (n : Int)
  | str (s : String)
deriving DecidableEq, Repr

/-- JavaScript `String(v)` on the modelled scalar values. -/
def jsString : JSValue → String
  | JSValue.null => "null"
  | JSValue.bool true => "true"
  | JSValue.bool false => "false"
  | JSValue.num n => toString n
  | JSValue.str s => s

/-- A result row: a JSON object, i.e. a finite map from column names to
scalar values, modelled as an association list with unique keys. -/
abbrev Row := List (String × JSValue)

/-- JavaScript `v ?? d`: the nullish-coalescing operator.  A missing key
(`none`, JavaScript `undefined`) and an explicit `null` both fall back to
the default; every other value passes through. -/
def nullishCoalesce (v : Option JSValue) (d : JSValue) : JSValue :=
  match v with
  | none => d
  | some JSValue.null => d
  | some w => w

/-- One rendered cell, from `App.tsx` line 128:
`String((row as any)[col] ?? '')`. -/
def cellStr (row : Row) (c : String) : String :=
  jsString (nullishCoalesce (row.lookup c) (JSValue.str ""))

/-- What the results table renders: either the explicit
"No rows returned." placeholder, or a grid of header cells and row cells. -/
inductive RenderResult where
  | noRows
  | grid (headers : List String) (cells : List (List String))
deriving DecidableEq, Repr

/-- The table renderer from `App.tsx` lines 113–133:
`response.rows.length === 0` renders the placeholder; otherwise a table
whose header row maps over `columns` and whose body maps over `rows`,
each row mapping over `columns` with `String(row[col] ?? '')` cells. -/
def renderTable (columns : List String) (rows : List Row) : RenderResult :=
  if rows.length = 0 then RenderResult.noRows
  else RenderResult.grid columns (rows.map fun row => columns.map fun c => cellStr row c)

/-- The specification's wording of one grid cell (§4.3):
`rows[i][columns[j]]` if present and non-null, else the empty-string
sentinel.  Written from the spec's words as the refinement target for the
renderer; compare with `cellStr`. -/
def specCell (row : Row) (c : String) : String :=
  match row.lookup c with
  | none => ""
  | some JSValue.null => ""
  | some v => jsString v

/-- The specification's wording of the grid (§4.3): the m×n grid whose
entry at (i, j) is `specCell rows[i] columns[j]`.  Written from the
spec's words as the refinement target for the renderer. -/
def specGrid (columns : List String) (rows : List Row) : List (List String) :=
  (List.range rows.length).map fun i =>
    (List.range columns.length).map fun j =>
      specCell (rows.getD i []) (columns.getD j "")

/-- Whether the summary block is rendered, from `App.tsx` line 137:
`response.summary && (...)`.  JavaScript truthiness of an optional
string: `undefined`/`null` (here `none`) and the empty string are falsy,
every other string — including whitespace-only ones — is truthy. -/
def summaryRendered (summary : Option String) : Bool :=
  match summary with
  | none => false
  | some s => !(s == "")

/-- The parsed shape of a 2xx response body (`ApiResponse` in `App.tsx`).
`columns` is `Option` so that a payload from which the field is absent is
representable; the code itself never checks for its presence. -/
structure Payload where
  sql : String
  rows : List Row
  columns : Option (List String)
  raw_answer : Option String
  summary : Option String
deriving DecidableEq, Repr

/-- The component state touched by `handleSubmit`: the `loading`,
`error` and `response` `useState` cells. -/
structure AppState where
  loading : Bool
  error : Option String
  response : Option Payload
deriving DecidableEq, Repr

/-- The initial component state: not loading, no error, no response. -/
def initState : AppState :=
  { loading := false, error := none, response := none }

/-- `res.ok`: status in the 2xx–3xx‑exclusive success range [200, 300). -/
def resOk (status : Nat) : Bool :=
  decide (200 ≤ status) && decide (status < 300)

/-- The message of the error thrown for a non-2xx response, from
`App.tsx` line 41: `text || ` followed by the template
`Request failed with status ...`.  JavaScript `||` on strings takes the
right operand exactly when the left is empty. -/
def failMessage (status : Nat) (body : String) : String :=
  if body = "" then "Request failed with status " ++ toString status else body

/-- How a single fetch settles: transport failure (fetch rejected, no
response obtained), or a response with a status, a text body, and — for
the path that reads it — the result of parsing the body as JSON. -/
inductive NetOutcome where
  | netFail (msg : String)
  | fetched (status : Nat) (body : String) (parsed : Except String Payload)

/-- How a settled fetch updates the component state, from `App.tsx`
lines 38–50.  Non-2xx: the thrown `Error(text || template)` is caught
and `setError` stores its message.  2xx with a JSON parse failure: the
thrown parse error is caught the same way.  2xx parsed: `setResponse`
stores the payload unchecked.  In every case the `finally` block runs
`setLoading(false)`.  Fields not written by the taken path keep their
current values. -/
def applyOutcome (s : AppState) : NetOutcome → AppState
  | NetOutcome.netFail msg => { s with loading := false, error := some msg }
  | NetOutcome.fetched status body parsed =>
    if resOk status then
      match parsed with
      | Except.error msg => { s with loading := false, error := some msg }
      | Except.ok p => { s with loading := false, response := some p }
    else
      { s with loading := false, error := some (failMessage status body) }

/-- The discrete events a submission contributes to the shared state:
its synchronous prefix (`setLoading(true); setError(null);
setResponse(null)`) and, later, the arrival of its outcome. -/
inductive Ev where
  | start
  | finish (o : NetOutcome)

/-- One event applied to the shared component state. -/
def step (s : AppState) : Ev → AppState
  | Ev.start => { s with loading := true, error := none, response := none }
  | Ev.finish o => applyOutcome s o

/-- A full run of `handleSubmit` for a single submission whose fetch
settles with outcome `o`: the synchronous prefix, then the completion. -/
def handleSubmit (s : AppState) (o : NetOutcome) : AppState :=
  step (step s Ev.start) (Ev.finish o)

/-- The shared state after a sequence of interleaved submission events. -/
def runEvents (es : List Ev) (s : AppState) : AppState :=
  es.foldl step s

/-- The JSON body of the POST issued by `handleSubmit`
(`App.tsx` lines 30–35). -/
structure RequestBody where
  db_path : String
  question : String
  dialect : String
  max_tokens : Nat
deriving DecidableEq, Repr

/-- The specification's error taxonomy (§7).  The code has no such
taxonomy; the type exists so the spec's claims about it can be stated. -/
inductive ErrorKind where
  | validation
  | network
  | requestFailed
  | invalidResponse
deriving DecidableEq, Repr

/-- What the pre-network part of a submission can do: issue the network
call, or fail locally.  The code's `handleSubmit` has no local-failure
branch; the constructor exists so the spec's claim can be stated. -/
inductive SubmitStep where
  | networkCall (req : RequestBody)
  | localFailure (k : ErrorKind)
deriving DecidableEq, Repr

/-- Boolean discriminator for `SubmitStep.networkCall`. -/
def submitIsNetworkCall : SubmitStep → Bool
  | SubmitStep.networkCall _ => true
  | SubmitStep.localFailure _ => false

/-- The pre-network part of `handleSubmit` (`App.tsx` lines 26–36): it
unconditionally issues the fetch, with the field values exactly as typed
(no trimming, no validation) and the fixed `dialect`/`max_tokens`. -/
def submitStart (dbPath question : String) : SubmitStep :=
  SubmitStep.networkCall
    { db_path := dbPath, question := question, dialect := "sqlite", max_tokens := 512 }

/-- A concrete well-formed payload, used as the result of an "earlier"
submission in interleaving scenarios. -/
def payloadA : Payload :=
  { sql := "SELECT a", rows := [], columns := some [], raw_answer := none, summary := none }

/-- A concrete well-formed payload distinct from `payloadA`, used as the
result of a "later" submission in interleaving scenarios. -/
def payloadB : Payload :=
  { sql := "SELECT b", rows := [], columns := some [], raw_answer := none, summary := none }

/-- A concrete payload with the `columns` field absent. -/
def payloadNoColumns : Payload :=
  { sql := "SELECT x", rows := [], columns := none, raw_answer := none, summary := none }

/-- A concrete state in which a previous result is on display. -/
def priorState : AppState :=
  { loading := false, error := none, response := some payloadA }

/-- Modelled from the spec: a field value that is empty after trimming,
i.e. every character is whitespace.  The code itself never trims; this
predicate only states the spec's premise. -/
def blankAfterTrim (s : String) : Bool :=
  s.toList.all Char.isWhitespace

/-! ## Helper lemmas -/

/-- The code's cell expression `String(row[col] ?? '')` agrees with the
spec's case split (present-and-non-null versus the empty sentinel). -/
theorem cellStr_eq_specCell (row : Row) (c : String) : cellStr row c = specCell row c := by
  unfold cellStr specCell nullishCoalesce
  cases row.lookup c with
  | none => rfl
  | some v => cases v <;> rfl

/-- Mapping over a list is the same as mapping its function, applied at
the default-read entry, over the range of its indices. -/
theorem map_getD_range {α β : Type} (f : α → β) (l : List α) (d : α) :
    l.map f = (List.range l.length).map fun i => f (l.getD i d) := by
  apply List.ext_getElem
  · simp
  · intro i h1 h2
    have hl : i < l.length := by simpa using h1
    simp only [List.getElem_map, List.getElem_range]
    rw [List.getD_eq_getElem l d hl]

/-- The cell matrix built by the renderer equals the index-built grid of
the specification. -/
theorem renderGrid_eq_specGrid (cols : List String) (rows : List Row) :
    rows.map (fun row => cols.map fun c => cellStr row c) = specGrid cols rows := by
  unfold specGrid
  rw [map_getD_range (fun row => cols.map fun c => cellStr row c) rows []]
  apply List.map_congr_left
  intro i _
  rw [map_getD_range (fun c => cellStr (rows.getD i []) c) cols ""]
  apply List.map_congr_left
  intro j _
  exact cellStr_eq_specCell _ _

/-- Every completed run of `handleSubmit` lands in one of the two
terminal shapes: an error with no response, or a response with no
error — with `loading` cleared in both. -/
theorem handleSubmit_cases (s : AppState) (o : NetOutcome) :
    (∃ msg, handleSubmit s o = { loading := false, error := some msg, response := none })
    ∨ (∃ p, handleSubmit s o = { loading := false, error := none, response := some p }) := by
  cases o with
  | netFail msg => exact Or.inl ⟨msg, rfl⟩
  | fetched status body parsed =>
    by_cases h : resOk status = true
    · cases parsed with
      | error msg =>
        exact Or.inl ⟨msg, by simp [handleSubmit, step, applyOutcome, h]⟩
      | ok p =>
        exact Or.inr ⟨p, by simp [handleSubmit, step, applyOutcome, h]⟩
    · have h' : resOk status = false := by simpa using h
      exact Or.inl ⟨failMessage status body, by simp [handleSubmit, step, applyOutcome, h']⟩

/-- Appending one event to a run applies it last to the reached state. -/
theorem runEvents_append (es : List Ev) (e : Ev) (s : AppState) :
    runEvents (es ++ [e]) s = step (runEvents es s) e := by
  simp [runEvents, List.foldl_append]

/-! ## Claims -/

/-- C1 (counterexample): two submissions overlap — submission A starts,
submission B starts, then B's successful reply arrives first and A's
stale reply arrives last.  The claim requires the final displayed state
to reflect only B (`payloadB`) regardless of arrival order; the code has
no sequence-id guard, so the stale reply from A overwrites and the final
response is `payloadA ≠ payloadB`. -/
theorem c1_counterexample :
    (runEvents
        [Ev.start, Ev.start,
         Ev.finish (NetOutcome.fetched 200 "" (Except.ok payloadB)),
         Ev.finish (NetOutcome.fetched 200 "" (Except.ok payloadA))]
        initState).response = some payloadA
    ∧ (payloadA == payloadB) = false := by
  exact ⟨rfl, by decide⟩

/-- C1 (amended): there is no stale-response suppression; whichever
reply is processed last wins.  After any history of submission events,
a final successful (2xx, parsed) reply leaves exactly its payload
displayed, and a final transport failure leaves exactly its message as
the error — in both cases with `loading` cleared. -/
theorem c1_last_reply_wins :
    ∀ (s : AppState) (es : List Ev) (body : String) (p : Payload) (msg : String),
      ((runEvents (es ++ [Ev.finish (NetOutcome.fetched 200 body (Except.ok p))]) s).response
          = some p
        ∧ (runEvents (es ++ [Ev.finish (NetOutcome.fetched 200 body (Except.ok p))]) s).loading
          = false)
      ∧ ((runEvents (es ++ [Ev.finish (NetOutcome.netFail msg)]) s).error = some msg
        ∧ (runEvents (es ++ [Ev.finish (NetOutcome.netFail msg)]) s).loading = false) := by
  intro s es body p msg
  have h200 : resOk 200 = true := rfl
  refine ⟨⟨?_, ?_⟩, ⟨?_, ?_⟩⟩ <;>
    rw [runEvents_append] <;> simp [step, applyOutcome, h200]

/-- C2 (counterexample): with both the locator and the question empty
(hence empty after trimming), `handleSubmit` still issues the network
call, with the empty untrimmed fields in the body; it does not fail
locally. -/
theorem c2_counterexample :
    blankAfterTrim "" = true
    ∧ submitStart "" "" = SubmitStep.networkCall
        { db_path := "", question := "", dialect := "sqlite", max_tokens := 512 }
    ∧ submitIsNetworkCall (submitStart "" "") = true
    ∧ (submitStart "" "" == SubmitStep.localFailure ErrorKind.validation) = false := by
  exact ⟨rfl, rfl, rfl, by decide⟩

/-- C2 (amended): submission performs no local validation at all: for
every locator and question — trimmed-empty or not — the network call is
issued, carrying the field values exactly as typed together with the
fixed dialect and token budget. -/
theorem c2_no_local_validation :
    ∀ (dbPath question : String),
      submitIsNetworkCall (submitStart dbPath question) = true
      ∧ submitStart dbPath question = SubmitStep.networkCall
          { db_path := dbPath, question := question, dialect := "sqlite", max_tokens := 512 } := by
  exact fun _ _ => ⟨rfl, rfl⟩

/-- C3 (counterexample): a 2xx reply whose payload is missing `columns`
is accepted without any validation: no error is produced (in particular
no InvalidResponse), and the invalid payload replaces the previously
displayed result, which is thereby lost. -/
theorem c3_counterexample :
    payloadNoColumns.columns = none
    ∧ priorState.response = some payloadA
    ∧ (handleSubmit priorState
        (NetOutcome.fetched 200 "" (Except.ok payloadNoColumns))).error = none
    ∧ (handleSubmit priorState
        (NetOutcome.fetched 200 "" (Except.ok payloadNoColumns))).response
        = some payloadNoColumns
    ∧ (some payloadNoColumns == some payloadA) = false := by
  exact ⟨rfl, rfl, rfl, rfl, by decide⟩

/-- C3 (amended): the code performs no payload validation: every parsed
2xx payload — including one missing `columns` — is stored as the new
displayed response, with no error, replacing whatever was displayed
before. -/
theorem c3_no_payload_validation :
    ∀ (s : AppState) (body : String) (p : Payload),
      handleSubmit s (NetOutcome.fetched 200 body (Except.ok p))
        = { loading := false, error := none, response := some p } := by
  exact fun _ _ _ => rfl

/-- C4: the rendered grid refines the specification: for every column
list and non-empty row list, the renderer produces the grid whose
headers are exactly `columns` and whose cell (i, j) is
`rows[i][columns[j]]` when present and non-null, else the empty string
(`specGrid`, built by index so row-key order cannot influence it); and
the spec's concrete instance `columns=["a","b"]`,
`rows=[{"a":1,"b":null},{"a":2}]` renders `[["1",""],["2",""]]`.
(The empty-row case renders the placeholder instead — claim C5.) -/
theorem c4_grid_matches_spec :
    (∀ (cols : List String) (r : Row) (rs : List Row),
      renderTable cols (r :: rs) = RenderResult.grid cols (specGrid cols (r :: rs)))
    ∧ renderTable ["a", "b"]
        [[("a", JSValue.num 1), ("b", JSValue.null)], [("a", JSValue.num 2)]]
      = RenderResult.grid ["a", "b"] [["1", ""], ["2", ""]] := by
  constructor
  · intro cols r rs
    unfold renderTable
    rw [if_neg (by simp), renderGrid_eq_specGrid]
  · decide

/-- C5: whenever `rows` is empty — for every `columns` list, in
particular `[]` and `["a"]` — the renderer produces the explicit
"no rows" placeholder, never a grid element. -/
theorem c5_empty_rows_placeholder :
    (∀ cols : List String, renderTable cols [] = RenderResult.noRows)
    ∧ renderTable [] [] = RenderResult.noRows
    ∧ renderTable ["a"] [] = RenderResult.noRows := by
  exact ⟨fun _ => rfl, rfl, rfl⟩

/-- C9: with empty `columns` and non-empty `rows`, the renderer is total
(it produces a result rather than failing) and emits no grid content:
no header cells and, for every row, zero cells. -/
theorem c9_empty_columns_no_content :
    ∀ (r : Row) (rs : List Row),
      renderTable [] (r :: rs) = RenderResult.grid [] ((r :: rs).map fun _ => []) := by
  exact fun _ _ => rfl

/-- C6: on a non-2xx response the displayed error message is the server
body verbatim when the body is non-empty, and otherwise the generic
message "Request failed with status " followed by the status code. -/
theorem c6_non2xx_error_message :
    ∀ (s : AppState) (status : Nat) (body : String) (parsed : Except String Payload),
      resOk status = false →
        ((body == "") = false →
          (handleSubmit s (NetOutcome.fetched status body parsed)).error = some body)
        ∧ ((body == "") = true →
          (handleSubmit s (NetOutcome.fetched status body parsed)).error
            = some ("Request failed with status " ++ toString status)) := by
  intro s status body parsed hstat
  have hs : handleSubmit s (NetOutcome.fetched status body parsed)
      = { loading := false, error := some (failMessage status body), response := none } := by
    simp [handleSubmit, step, applyOutcome, hstat]
  constructor
  · intro hb
    have hb' : ¬(body = "") := by simpa using hb
    rw [hs]
    simp [failMessage, hb']
  · intro hb
    have hb' : body = "" := by simpa using hb
    rw [hs]
    simp [failMessage, hb']

/-- C6 (witness): at status 404 with body "db not found", the literal
string "db not found" is surfaced as the error message. -/
theorem c6_witness :
    resOk 404 = false
    ∧ ("db not found" == "") = false
    ∧ (handleSubmit initState
        (NetOutcome.fetched 404 "db not found" (Except.error "boom"))).error
      = some "db not found" := by
  refine ⟨by decide, by decide, ?_⟩
  exact (c6_non2xx_error_message initState 404 "db not found" (Except.error "boom")
    (by decide)).1 (by decide)

/-- C8: the submission lifecycle: the synchronous prefix of
`handleSubmit` sets `loading` (Pending) and clears any prior error and
response; and for every way the fetch settles, the run ends with
`loading` cleared and exactly one of the two terminal outcomes — a
displayed response with no error, or a displayed error with no
response. -/
theorem c8_lifecycle :
    ∀ (s : AppState) (o : NetOutcome),
      (step s Ev.start).loading = true
      ∧ (step s Ev.start).error = none
      ∧ (step s Ev.start).response = none
      ∧ (handleSubmit s o).loading = false
      ∧ (((handleSubmit s o).response.isSome != (handleSubmit s o).error.isSome) = true) := by
  intro s o
  obtain ⟨msg, hm⟩ | ⟨p, hp⟩ := handleSubmit_cases s o
  · exact ⟨rfl, rfl, rfl, by simp [hm], by simp [hm]⟩
  · exact ⟨rfl, rfl, rfl, by simp [hp], by simp [hp]⟩

/-- C7 (counterexample): a whitespace-only summary is empty after
trimming, yet the summary block is rendered, because the code's guard
is JavaScript truthiness of the untrimmed string. -/
theorem c7_counterexample :
    summaryRendered (some " ") = true ∧ blankAfterTrim " " = true := by
  exact ⟨rfl, by decide⟩

/-- C7 (amended): the summary block is rendered exactly when `summary`
is present with a non-empty string — no trimming is applied, so a
whitespace-only summary does render the block; an absent/null or
empty-string summary renders nothing (and no error is raised: the
condition is a total function). -/
theorem c7_summary_truthiness :
    summaryRendered none = false
    ∧ (∀ s : String, summaryRendered (some s) = !(s == ""))
    ∧ summaryRendered (some " ") = true
    ∧ summaryRendered (some "") = false := by
  exact ⟨rfl, fun _ => rfl, rfl, rfl⟩

/-- C10 (counterexample): a present empty-string value also renders as
the empty string (it is passed through `String(...)` unchanged), so
null and missing keys are not the only sources of empty cells. -/
theorem c10_counterexample :
    cellStr [("a", JSValue.str "")] "a" = ""
    ∧ List.lookup "a" [("a", JSValue.str "")] = some (JSValue.str "")
    ∧ (JSValue.str "" == JSValue.null) = false := by
  exact ⟨rfl, rfl, by decide⟩

/-- C10 (amended): every cell renders as `String(v ?? '')`: null and
missing values are replaced by the empty string and everything else is
passed to `String(...)`, so `false` renders "false" and `0` renders
"0"; null and missing keys render as the empty string, and so does a
present empty-string value. -/
theorem c10_cell_string_semantics :
    (∀ (row : Row) (c : String), cellStr row c = specCell row c)
    ∧ cellStr [("k", JSValue.bool false)] "k" = "false"
    ∧ cellStr [("k", JSValue.num 0)] "k" = "0"
    ∧ cellStr [] "k" = ""
    ∧ cellStr [("k", JSValue.null)] "k" = ""
    ∧ cellStr [("k", JSValue.str "")] "k" = "" := by
  exact ⟨cellStr_eq_specCell, rfl, rfl, rfl, rfl, rfl⟩

end NLConsole
